import Mathlib

/-!
Verification development for the scanemon card-scanning service.

The definitions below are a shallow embedding of the resilience layer
(`api/app/services/resilience_service.py`), the ML identification service
(`api/app/services/ml_service.py`), and the scan endpoint
(`api/app/routes/scan.py`).  Python `datetime` values are modelled as
natural-number timestamps (seconds), Python floats as rationals, raised
exceptions as `Except` error values, and heterogeneous result dicts as
structures.
-/

namespace Scanemon

/-! ## Circuit breaker (resilience_service.py, class CircuitBreaker) -/

/-- The `CircuitState` enum: closed / open / half_open. -/
inductive CircuitState
  | CLOSED
  | OPEN
  | HALF_OPEN
deriving DecidableEq, Repr

/-- The `CircuitBreakerConfig` dataclass. -/
structure CircuitBreakerConfig where
  failure_threshold : Nat := 5
  recovery_timeout : Nat := 60
  name : String := "default"
deriving DecidableEq, Repr

/-- Mutable state of one `CircuitBreaker` instance. -/
structure CircuitBreaker where
  config : CircuitBreakerConfig
  state : CircuitState := CircuitState.CLOSED
  failure_count : Nat := 0
  last_failure_time : Option Nat := none
  success_count : Nat := 0
deriving DecidableEq, Repr

/-- Embedding of `CircuitBreaker.can_execute`.  The current wall-clock time
(`datetime.utcnow()`) is passed explicitly as `now`; the method both
returns the boolean and (in the `OPEN` branch) may advance the state to
`HALF_OPEN`, so the embedding returns the updated breaker alongside the
boolean. -/
def CircuitBreaker.can_execute (cb : CircuitBreaker) (now : Nat) :
    CircuitBreaker × Bool :=
  match cb.state with
  | CircuitState.CLOSED => (cb, true)
  | CircuitState.OPEN =>
    match cb.last_failure_time with
    | some t =>
      if now - t > cb.config.recovery_timeout then
        ({ cb with state := CircuitState.HALF_OPEN }, true)
      else
        (cb, false)
    | none => (cb, false)
  | CircuitState.HALF_OPEN => (cb, true)

/-- Embedding of `CircuitBreaker.on_success`. -/
def CircuitBreaker.on_success (cb : CircuitBreaker) : CircuitBreaker :=
  let cb' := { cb with failure_count := 0, success_count := cb.success_count + 1 }
  if cb'.state = CircuitState.HALF_OPEN then
    if cb'.success_count ≥ cb'.config.failure_threshold then
      { cb' with state := CircuitState.CLOSED, success_count := 0 }
    else cb'
  else cb'

/-- Embedding of `CircuitBreaker.on_failure`; `now` is `datetime.utcnow()` at the
moment of the failure. -/
def CircuitBreaker.on_failure (cb : CircuitBreaker) (now : Nat) : CircuitBreaker :=
  let cb' := { cb with failure_count := cb.failure_count + 1,
                       last_failure_time := some now,
                       success_count := 0 }
  if cb'.failure_count ≥ cb'.config.failure_threshold then
    { cb' with state := CircuitState.OPEN }
  else cb'

/-- A fresh breaker for a configuration, as built by `CircuitBreaker.__init__`. -/
def CircuitBreaker.fresh (cfg : CircuitBreakerConfig) : CircuitBreaker :=
  { config := cfg }

/-! ## Retry configuration and the resilient executor
(resilience_service.py, class RetryConfig and
ResilienceService.execute_with_resilience) -/

/-- The `RetryConfig` class.  The Python `exceptions` tuple (which exceptions the
`except` clause matches, default `(Exception,)`, matching everything) is
modelled as a boolean predicate on the error value. -/
structure RetryConfig (ε : Type) where
  max_attempts : Nat := 3
  base_delay : ℚ := 1
  max_delay : ℚ := 60
  backoff_factor : ℚ := 2
  exceptions : ε → Bool := fun _ => true

/-- The structurally valid defaults produced by
`ResilienceService._get_default_fallback`, keyed on substrings of the
lowercased dependency name. -/
inductive DefaultFallback
  | ml_unavailable
  | database_unavailable
  | cache_unavailable
  | generic_unavailable (name : String)
deriving DecidableEq, Repr

/-- Whether `needle` is a leading segment of `hay` (`str.startswith`). -/
def charsStartWith : List Char → List Char → Bool
  | _, [] => true
  | [], _ :: _ => false
  | a :: as, b :: bs => a == b && charsStartWith as bs

/-- Whether `needle` occurs contiguously inside `hay` (Python `in`). -/
def charsContain : List Char → List Char → Bool
  | [], needle => needle.isEmpty
  | h :: t, needle => charsStartWith (h :: t) needle || charsContain t needle

/-- Python `sub in s`. -/
def strContains (s sub : String) : Bool :=
  charsContain s.data sub.data

/-- Embedding of `ResilienceService._get_default_fallback`. -/
def get_default_fallback (name : String) : DefaultFallback :=
  let n := name.toLower
  if strContains n "ml" then DefaultFallback.ml_unavailable
  else if strContains n "database" then DefaultFallback.database_unavailable
  else if strContains n "cache" then DefaultFallback.cache_unavailable
  else DefaultFallback.generic_unavailable name

/-- Result of `ResilienceService._execute_fallback`: either the registered
handler value, or a default fallback (when no handler is registered or the
handler itself raises). -/
inductive FallbackOutcome (α : Type)
  | handler (a : α)
  | defaulted (d : DefaultFallback)
deriving DecidableEq, Repr

/-- Embedding of `ResilienceService._execute_fallback`.  `fb` is the registered
handler's behaviour when invoked: `none` when no handler is registered for
the name, `some (.ok a)` when it returns `a`, `some (.error e)` when it
raises. -/
def execute_fallback (name : String) (fb : Option (Except ε α)) :
    FallbackOutcome α :=
  match fb with
  | some (Except.ok a) => FallbackOutcome.handler a
  | some (Except.error _) => FallbackOutcome.defaulted (get_default_fallback name)
  | none => FallbackOutcome.defaulted (get_default_fallback name)

/-- How one call to `execute_with_resilience` ends: a successful operation
result, a fallback value, a raw exception propagating to the caller (an
error not matched by `retry_config.exceptions`), or Python's implicit
`None` (reachable only with `max_attempts = 0`). -/
inductive ExecResult (ε α : Type)
  | ok (a : α)
  | fallback (v : FallbackOutcome α)
  | raised (e : ε)
  | pyNone
deriving DecidableEq, Repr

/-- Observable trace of one `execute_with_resilience` call: the outcome,
how many times the operation was invoked, the `asyncio.sleep` delays in
order, and the circuit breaker as left behind. -/
structure ExecTrace (ε α : Type) where
  result : ExecResult ε α
  invocations : Nat
  sleeps : List ℚ
  breaker : CircuitBreaker
deriving DecidableEq, Repr

/-- The backoff delay slept after failed attempt `k` (0-based):
`min(base_delay * backoff_factor ** attempt, max_delay)`. -/
def backoff_delay (rc : RetryConfig ε) (k : Nat) : ℚ :=
  min (rc.base_delay * rc.backoff_factor ^ k) rc.max_delay

/-- The `for attempt in range(max_attempts)` loop of
`execute_with_resilience`.  `op k` is the outcome of the `k`-th invocation
of the operation; `tm k` is the wall-clock time at the `k`-th failure;
`remaining` counts the loop iterations left and `k` is the current attempt
index, so `k + remaining = max_attempts` at every call. -/
def execAttempts (rc : RetryConfig ε) (name : String)
    (fb : Option (Except ε α)) (op : Nat → Except ε α) (tm : Nat → Nat) :
    Nat → Nat → CircuitBreaker → List ℚ → ExecTrace ε α
  | 0, k, cb, sleeps => ⟨ExecResult.pyNone, k, sleeps.reverse, cb⟩
  | remaining + 1, k, cb, sleeps =>
    match op k with
    | Except.ok a =>
      ⟨ExecResult.ok a, k + 1, sleeps.reverse, cb.on_success⟩
    | Except.error e =>
      if rc.exceptions e then
        let cb' := cb.on_failure (tm k)
        if k = rc.max_attempts - 1 then
          ⟨ExecResult.fallback (execute_fallback name fb), k + 1,
            sleeps.reverse, cb'⟩
        else
          execAttempts rc name fb op tm remaining (k + 1) cb'
            (backoff_delay rc k :: sleeps)
      else
        ⟨ExecResult.raised e, k + 1, sleeps.reverse, cb⟩

/-- Embedding of `ResilienceService.execute_with_resilience` for one dependency name:
`cb0` is that name's breaker (created on first use), `rcOpt` the entry of
`retry_configs` for the name (`none` means the default `RetryConfig()`),
`fb` the registered fallback handler's behaviour, and `now` the wall-clock
time at the `can_execute` check. -/
def execute_with_resilience (name : String) (cb0 : CircuitBreaker)
    (rcOpt : Option (RetryConfig ε)) (fb : Option (Except ε α))
    (op : Nat → Except ε α) (tm : Nat → Nat) (now : Nat) : ExecTrace ε α :=
  let checked := cb0.can_execute now
  if checked.2 then
    let rc := rcOpt.getD {}
    execAttempts rc name fb op tm rc.max_attempts 0 checked.1 []
  else
    ⟨ExecResult.fallback (execute_fallback name fb), 0, [], checked.1⟩

/-- The outcome `x` is a failure that the policy classifies retryable
(the raised exception is matched by `retry_config.exceptions`). -/
def retry_fails (rc : RetryConfig ε) (x : Except ε α) : Prop :=
  ∃ e, x = Except.error e ∧ rc.exceptions e = true

/-! ## ML identification service (ml_service.py, class MLService) -/

/-- The `metadata` dict attached to a `CardPrediction`: on success the
CLIP similarity scores, on failure the stringified exception. -/
inductive MLMetadata
  | clip (similarities : List ℚ)
  | err (msg : String)
deriving DecidableEq, Repr

/-- The `CardPrediction` dataclass (the fields the scan pipeline reads). -/
structure CardPrediction where
  name : String
  set : String
  number : Option String := none
  rarity : String := "Unknown"
  confidence : ℚ := 0
  model_version : String := "unknown"
  processing_time_ms : Nat := 0
  metadata : Option MLMetadata := none
deriving DecidableEq, Repr

/-- The list `MLService.card_names` (keys of `card_database`, in insertion order). -/
def card_names : List String :=
  ["Pikachu", "Charizard", "Mew", "Mewtwo", "Bulbasaur",
   "Squirtle", "Eevee", "Umbreon", "Ditto", "Magikarp"]

/-- The `MLService.card_database` mapping: set, number, rarity per card name. -/
def card_database (name : String) : Option (String × String × String) :=
  if name = "Pikachu" then some ("Base Set", "58/102", "Common")
  else if name = "Charizard" then some ("Base Set", "4/102", "Ultra Rare")
  else if name = "Mew" then some ("Promo", "9", "Rare")
  else if name = "Mewtwo" then some ("Base Set", "10/102", "Rare")
  else if name = "Bulbasaur" then some ("Base Set", "44/102", "Common")
  else if name = "Squirtle" then some ("Base Set", "63/102", "Common")
  else if name = "Eevee" then some ("Jungle", "51/64", "Common")
  else if name = "Umbreon" then some ("Neo Discovery", "13/75", "Rare")
  else if name = "Ditto" then some ("Fossil", "3/62", "Common")
  else if name = "Magikarp" then some ("Base Set", "52/102", "Common")
  else none

/-- Index of the first maximal element (`torch.argmax` on a 1-D tensor);
`none` on an empty tensor, where torch raises. -/
def argmaxAux : List ℚ → ℚ → Nat → Nat → Nat
  | [], _, best, _ => best
  | x :: xs, bv, best, i =>
    if x > bv then argmaxAux xs x i (i + 1) else argmaxAux xs bv best (i + 1)

/-- First-max index of a similarity list, `none` when empty. -/
def argmax_idx (l : List ℚ) : Option Nat :=
  match l with
  | [] => none
  | x :: xs => some (argmaxAux xs x 0 1)

/-- The canonical failure prediction built in the `except` branch of
`identify_card`. -/
def unknown_prediction (e : String) (elapsed_ms : Nat) : CardPrediction :=
  { name := "Unknown", set := "Unknown", rarity := "Unknown",
    confidence := 0, model_version := "clip_v1.0.0",
    processing_time_ms := elapsed_ms, metadata := some (MLMetadata.err e) }

/-- Embedding of `MLService.identify_card`.  `outcome` abstracts everything inside the
`try` block up to and including the similarity computation: `.error e`
when initialization, image decoding/preprocessing, or inference raised
(with `e` the stringified exception), `.ok sims` when it produced the
similarity scores.  `elapsed_ms` is the measured processing time.  The
whole body is wrapped in `except Exception`, so the function is total:
an indexing or argmax error downstream of `outcome` also lands in the
`except` branch. -/
def identify_card (outcome : Except String (List ℚ)) (elapsed_ms : Nat) :
    CardPrediction :=
  match outcome with
  | Except.error e => unknown_prediction e elapsed_ms
  | Except.ok sims =>
    match argmax_idx sims with
    | none => unknown_prediction "argmax of an empty tensor" elapsed_ms
    | some best_idx =>
      match card_names.get? best_idx with
      | none => unknown_prediction "list index out of range" elapsed_ms
      | some card_name =>
        match card_database card_name with
        | none => unknown_prediction "key error" elapsed_ms
        | some info =>
          { name := card_name, set := info.1, number := some info.2.1,
            rarity := info.2.2, confidence := (sims.get? best_idx).getD 0,
            model_version := "clip_v1.0.0",
            processing_time_ms := elapsed_ms,
            metadata := some (MLMetadata.clip sims) }

/-! ## Scan endpoint (routes/scan.py, scan_endpoint) -/

/-- A detection returned by `card_detector.detect_cards`.
`detect_cards` wraps its whole body in `except Exception: return []`, so
an internal detection failure is observed as the empty list. -/
structure CardDetection where
  bounding_box : Nat × Nat × Nat × Nat
  confidence : ℚ
  card_type : String := "pokemon"
deriving DecidableEq, Repr

/-- Outcomes of the dependencies touched by one `perform_scan_with_retry`
call: the `file.read()` result, the detections (already total — internal
detection failure shows up as `[]`), the `crop_card` result (consulted
only when a detection exists), and the abstract ML outcome fed to
`identify_card` together with its measured time. -/
structure ScanDeps where
  read_result : Except String Unit
  detections : List CardDetection
  crop_result : Except String Unit
  identify_outcome : Except String (List ℚ)
  identify_ms : Nat
deriving Repr

/-- The `card_data` dict (the fields the endpoint later reads or copies).
Keys that a given branch of the Python code does not put in its dict are
represented by `none` / the branch's stated constants. -/
structure CardData where
  name : String
  set : String
  rarity : String
  confidence : ℚ
  model_version : String
  error_type : Option String
  error_message : Option String
  retry_count : Nat
  suggest_retry : Bool
  retry_delay_seconds : Nat
  mode : String
deriving DecidableEq, Repr

/-- Embedding of `perform_scan_with_retry` (one underlying invocation; the missing
`retry_with_backoff` decorator re-invokes the same deterministic
operation, so the surfaced outcome is this one).  Failure of `file.read`
or `crop_card` re-raises out of the function; detection and
identification failures do not raise (detections degrade to the full
image, identification degrades to an "Unknown" prediction). -/
def perform_scan_with_retry (deps : ScanDeps) : Except String CardData :=
  match deps.read_result with
  | Except.error e => Except.error e
  | Except.ok _ =>
    let cropStep : Except String Unit :=
      if deps.detections.isEmpty then Except.ok () else deps.crop_result
    match cropStep with
    | Except.error e => Except.error e
    | Except.ok _ =>
      let pred := identify_card deps.identify_outcome deps.identify_ms
      Except.ok
        { name := pred.name, set := pred.set, rarity := pred.rarity,
          confidence := pred.confidence, model_version := pred.model_version,
          error_type := none, error_message := none, retry_count := 0,
          suggest_retry := false, retry_delay_seconds := 0, mode := "online" }

/-- The `system_status` dict read by the endpoint (its producer
`get_system_status` is not part of the sources; the endpoint only reads
these two keys). -/
structure SystemStatus where
  connection_status : String
  offline_queue_size : Nat
deriving DecidableEq, Repr

/-- A `user_guidance` dict. -/
structure UserGuidance where
  message : String
  action : String
  priority : String
deriving DecidableEq, Repr

/-- The endpoint's JSON response (the keys the claims are about). -/
structure ScanResponse where
  card : CardData
  processing_time_ms : Nat
  system_status_connection : String
  system_status_queue_size : Nat
  suggest_offline_mode : Bool
  analytics_id : Nat
  user_guidance : Option UserGuidance
deriving DecidableEq, Repr

/-- How a request can end without a response body: an `HTTPException`
raised by the upfront validation, or an exception escaping the handler
(the analytics write is not guarded by any `try`). -/
inductive EndpointError
  | http (statusCode : Nat) (detail : String)
  | uncaught (e : String)
deriving DecidableEq, Repr

/-- The content-type allow-list of the endpoint. -/
def allowed_types : List String :=
  ["image/jpeg", "image/png", "image/webp", "image/gif"]

/-- Embedding of `fallback_scan`: the offline-mode card data. -/
def fallback_scan : CardData :=
  { name := "Unknown", set := "Unknown", rarity := "Unknown",
    confidence := 0, model_version := "offline_fallback",
    error_type := some "offline_mode",
    error_message :=
      some "Scanning unavailable in offline mode. Please try again when online.",
    retry_count := 0, suggest_retry := true, retry_delay_seconds := 5,
    mode := "offline" }

/-- Embedding of `scan_endpoint`.  `size` is `file.size` (`none` when the attribute is
absent), `system` the `get_system_status()` result, `deps` the dependency
outcomes of the scan attempt, `analytics_result` the outcome of
`ScanAnalyticsService.log_scan` (`.ok id` on success, `.error e` when the
database write raises — that call is not inside any `try`, so the raw
error escapes the handler). -/
def scan_endpoint (content_type : String) (size : Option Nat)
    (system : SystemStatus) (retry_count : Nat) (deps : ScanDeps)
    (processing_time_ms : Nat) (analytics_result : Except String Nat) :
    Except EndpointError ScanResponse :=
  if content_type ∉ allowed_types then
    Except.error (EndpointError.http 400
      "Invalid file type. Please upload an image (jpg, png, webp, gif).")
  else if 10 * 1024 * 1024 < size.getD 0 then
    Except.error (EndpointError.http 413
      "Image too large. Maximum size is 10MB.")
  else
    let card_data : CardData :=
      if system.connection_status = "offline" then fallback_scan
      else
        match perform_scan_with_retry deps with
        | Except.ok d => d
        | Except.error e =>
          { name := "Unknown", set := "Unknown", rarity := "Unknown",
            confidence := 0, model_version := "error_fallback",
            error_type := some "ml_error",
            error_message :=
              some (if retry_count > 0 then s!"Retry {retry_count}: {e}" else e),
            retry_count := retry_count,
            suggest_retry :=
              decide (retry_count < 2) && ("ml_error" != "offline_mode"),
            retry_delay_seconds := if retry_count = 0 then 10 else 20,
            mode := "error" }
    match analytics_result with
    | Except.error e => Except.error (EndpointError.uncaught e)
    | Except.ok analytics_id =>
      let user_guidance : Option UserGuidance :=
        match card_data.error_type with
        | some et =>
          if et = "offline_mode" then
            some { message := "You\x27re currently offline. Your scan will be processed when you\x27re back online.",
                   action := "retry_when_online", priority := "info" }
          else if et = "ml_error" then
            some { message := "Scan failed. Try adjusting lighting or taking a clearer photo.",
                   action := "retry_with_better_image", priority := "warning" }
          else none
        | none =>
          if card_data.confidence < 7/10 then
            some { message := "Low confidence scan. Consider retrying with a clearer image.",
                   action := "suggest_retry", priority := "warning" }
          else
            some { message := "Scan completed successfully!",
                   action := "add_to_collection", priority := "success" }
      Except.ok
        { card := card_data, processing_time_ms := processing_time_ms,
          system_status_connection := system.connection_status,
          system_status_queue_size := system.offline_queue_size,
          suggest_offline_mode := system.connection_status = "offline",
          analytics_id := analytics_id, user_guidance := user_guidance }

/-! ## Offline queue -/

/-- An `OfflineAction` queue entry. -/
structure OfflineAction where
  id : Nat
  action_kind : String
  retry_count : Nat := 0
deriving DecidableEq, Repr

/-- Modelled from the spec: the repository ships only callers of the
offline queue (the scan route reads `offline_queue_size`); the queue
itself is absent from the sources.  `Enqueue` appends and assigns a
monotonically increasing id. -/
structure OfflineQueue where
  next_id : Nat := 0
  items : List OfflineAction := []
deriving DecidableEq, Repr

/-- Modelled from the spec: `Enqueue(action) -> id` appends the action and
assigns the next monotonically increasing id. -/
def OfflineQueue.enqueue (q : OfflineQueue) (kind : String) :
    OfflineQueue × Nat :=
  (⟨q.next_id + 1, q.items ++ [⟨q.next_id, kind, 0⟩]⟩, q.next_id)

/-- Result of one `Drain` pass: the remaining queue, the ids handed to
`replay_fn` in order, the ids dropped with a permanent-failure signal, and
the count of successfully replayed actions. -/
structure DrainResult where
  queue : List OfflineAction
  replayed : List Nat
  dropped : List Nat
  processed : Nat
deriving DecidableEq, Repr

/-- Modelled from the spec: `Drain(replay_fn)` iterates the queue in FIFO
order; a successful replay removes the action; a failed replay increments
`retry_count` and keeps the action (still at the front, ending this drain
so later entries are never replayed ahead of it) while
`retry_count < max_retries`, otherwise drops it with a permanent-failure
signal and continues. -/
def drain (replay : OfflineAction → Bool) (max_retries : Nat) :
    List OfflineAction → DrainResult
  | [] => ⟨[], [], [], 0⟩
  | a :: rest =>
    if replay a then
      let r := drain replay max_retries rest
      ⟨r.queue, a.id :: r.replayed, r.dropped, r.processed + 1⟩
    else
      if a.retry_count + 1 < max_retries then
        ⟨{ a with retry_count := a.retry_count + 1 } :: rest, [a.id], [], 0⟩
      else
        let r := drain replay max_retries rest
        ⟨r.queue, a.id :: r.replayed, a.id :: r.dropped, r.processed⟩

/-- The spec's example scenario: a 2MB jpeg, one detected region with
confidence 0.9, identification answering Pikachu with confidence 0.95
(the first similarity is maximal, so `argmax` selects Pikachu). -/
def pikachu_scenario_deps : ScanDeps :=
  { read_result := Except.ok (),
    detections := [{ bounding_box := (0, 0, 100, 140), confidence := 9/10 }],
    crop_result := Except.ok (),
    identify_outcome := Except.ok [19/20, 0, 0, 0, 0, 0, 0, 0, 0, 0],
    identify_ms := 4 }

/-- The queue holding actions "A", "B", "C" enqueued in that order. -/
def offline_q_abc : OfflineQueue :=
  ((({} : OfflineQueue).enqueue "A").1.enqueue "B").1.enqueue "C" |>.1

/-- A replay function that permanently fails on action id 0 ("A") and
succeeds on every other action. -/
def replay_fail_a : OfflineAction → Bool := fun a => a.id != 0

/-- The `ml_service` retry configuration from `setup_default_resilience`
(3 attempts, base delay 1s, max delay 10s, factor 2, every exception
retryable). -/
def ml_retry_config : RetryConfig String :=
  { max_attempts := 3, base_delay := 1, max_delay := 10, backoff_factor := 2 }

/-- A retry configuration whose exception tuple matches only timeouts, so
any other error is classified non-retryable by the policy. -/
def nonretry_config : RetryConfig String :=
  { max_attempts := 5, base_delay := 1, max_delay := 30, backoff_factor := 2,
    exceptions := fun e => e == "timeout" }

/-- Applying `n` consecutive `on_failure` calls (at the given times) against a
fresh breaker for `cfg`. -/
def apply_failures (cfg : CircuitBreakerConfig) (ts : List Nat) : CircuitBreaker :=
  ts.foldl (fun cb t => cb.on_failure t) (CircuitBreaker.fresh cfg)

/-! ## Circuit breaker lemmas -/

/-- All field effects of one `on_failure` call. -/
theorem on_failure_fields (cb : CircuitBreaker) (t : Nat) :
    (cb.on_failure t).config = cb.config ∧
    (cb.on_failure t).failure_count = cb.failure_count + 1 ∧
    (cb.on_failure t).success_count = 0 ∧
    (cb.on_failure t).last_failure_time = some t ∧
    (cb.on_failure t).state =
      (if cb.config.failure_threshold ≤ cb.failure_count + 1 then
        CircuitState.OPEN else cb.state) := by
  unfold CircuitBreaker.on_failure
  refine ⟨?_, ?_, ?_, ?_, ?_⟩ <;>
    · dsimp only
      split <;> simp_all [ge_iff_le]

/-- Folding `on_failure` over a time list leaves the configuration unchanged. -/
theorem foldl_on_failure_config (ts : List Nat) : ∀ cb0 : CircuitBreaker,
    (ts.foldl (fun cb t => cb.on_failure t) cb0).config = cb0.config := by
  induction ts with
  | nil => intro cb0; rfl
  | cons t rest ih =>
    intro cb0
    have h := (on_failure_fields cb0 t).1
    simpa [List.foldl_cons, h] using ih (cb0.on_failure t)

/-- Folding `on_failure` over a time list adds the list length to the failure count. -/
theorem foldl_on_failure_count (ts : List Nat) : ∀ cb0 : CircuitBreaker,
    (ts.foldl (fun cb t => cb.on_failure t) cb0).failure_count
      = cb0.failure_count + ts.length := by
  induction ts with
  | nil => intro cb0; rfl
  | cons t rest ih =>
    intro cb0
    have h := (on_failure_fields cb0 t).2.1
    have := ih (cb0.on_failure t)
    simp only [List.foldl_cons, List.length_cons] at *
    omega

/-- Evaluating `can_execute` on an `OPEN` breaker with a recorded failure time. -/
theorem can_execute_open (cb : CircuitBreaker) (t now : Nat)
    (hst : cb.state = CircuitState.OPEN)
    (hlt : cb.last_failure_time = some t) :
    cb.can_execute now =
      (if cb.config.recovery_timeout < now - t then
        ({ cb with state := CircuitState.HALF_OPEN }, true)
      else (cb, false)) := by
  obtain ⟨cfg, st, fc, lft, sc⟩ := cb
  simp only at hst hlt
  subst hst
  subst hlt
  simp [CircuitBreaker.can_execute]

/-- A negative `can_execute` answer leaves the breaker untouched. -/
theorem can_execute_false_frame (cb : CircuitBreaker) (now : Nat)
    (h : (cb.can_execute now).2 = false) : (cb.can_execute now).1 = cb := by
  obtain ⟨cfg, st, fc, lft, sc⟩ := cb
  cases st
  · simp [CircuitBreaker.can_execute] at h
  · cases lft with
    | none => rfl
    | some t =>
      simp only [CircuitBreaker.can_execute] at h ⊢
      by_cases hc : cfg.recovery_timeout < now - t
      · rw [if_pos hc] at h
        simp at h
      · rw [if_neg hc]
  · simp [CircuitBreaker.can_execute] at h

/-- Iterating `on_success` from `HALF_OPEN` until the success counter
reaches the failure threshold closes the breaker and clears both
counters. -/
theorem on_success_iter (n : Nat) : ∀ cb : CircuitBreaker,
    cb.state = CircuitState.HALF_OPEN → 1 ≤ n →
    cb.success_count + n = cb.config.failure_threshold →
    CircuitBreaker.on_success^[n] cb =
      { config := cb.config, state := CircuitState.CLOSED,
        failure_count := 0, last_failure_time := cb.last_failure_time,
        success_count := 0 } := by
  induction n with
  | zero => intro cb _ h1 _; exact absurd h1 (by omega)
  | succ m ih =>
    intro cb hst _ hsum
    rw [Function.iterate_succ_apply]
    by_cases hm : m = 0
    · subst hm
      have hthr : cb.config.failure_threshold ≤ cb.success_count + 1 := by omega
      obtain ⟨cfg, st, fc, lft, sc⟩ := cb
      simp only at hst hsum hthr
      subst hst
      simp [CircuitBreaker.on_success, Function.iterate_zero, hthr]
    · have hm1 : 1 ≤ m := by omega
      have hlt : ¬ cb.config.failure_threshold ≤ cb.success_count + 1 := by omega
      have hstep : cb.on_success =
          { cb with failure_count := 0, success_count := cb.success_count + 1 } := by
        obtain ⟨cfg, st, fc, lft, sc⟩ := cb
        simp only at hst hlt
        subst hst
        simp [CircuitBreaker.on_success, hlt]
      rw [hstep]
      exact ih _ (by simp [hst]) hm1 (by simp; omega)

/-! ## Claim theorems: circuit breaker -/

/-- C3: starting from a fresh (Closed, zero-counter) breaker,
`failure_threshold` consecutive `on_failure` calls leave the breaker
`OPEN` with the last failure time recorded; `can_execute` answers `false`
(and changes nothing) at any moment at which the recovery timeout has not
strictly elapsed; at any moment at which it has, the next `can_execute`
call moves the state to `HALF_OPEN` and answers `true`; and
`failure_threshold` consecutive `on_success` calls from that `HALF_OPEN`
state close the breaker with both counters equal to zero. -/
theorem c3_breaker_lifecycle (cfg : CircuitBreakerConfig) (ts' : List Nat)
    (tlast : Nat) (hthr : ts'.length + 1 = cfg.failure_threshold)
    (now₁ now₂ : Nat) (h₁ : now₁ - tlast ≤ cfg.recovery_timeout)
    (h₂ : cfg.recovery_timeout < now₂ - tlast) :
    (apply_failures cfg (ts' ++ [tlast])).state = CircuitState.OPEN ∧
    (apply_failures cfg (ts' ++ [tlast])).last_failure_time = some tlast ∧
    (apply_failures cfg (ts' ++ [tlast])).can_execute now₁ =
      (apply_failures cfg (ts' ++ [tlast]), false) ∧
    (apply_failures cfg (ts' ++ [tlast])).can_execute now₂ =
      ({ apply_failures cfg (ts' ++ [tlast]) with state := CircuitState.HALF_OPEN },
        true) ∧
    CircuitBreaker.on_success^[cfg.failure_threshold]
        { apply_failures cfg (ts' ++ [tlast]) with state := CircuitState.HALF_OPEN } =
      { config := cfg, state := CircuitState.CLOSED, failure_count := 0,
        last_failure_time := some tlast, success_count := 0 } := by
  have hsplit : apply_failures cfg (ts' ++ [tlast])
      = (apply_failures cfg ts').on_failure tlast := by
    simp [apply_failures, List.foldl_append]
  have hcfgP : (apply_failures cfg ts').config = cfg :=
    foldl_on_failure_config ts' (CircuitBreaker.fresh cfg)
  have hcntP : (apply_failures cfg ts').failure_count = ts'.length := by
    simpa [CircuitBreaker.fresh] using
      foldl_on_failure_count ts' (CircuitBreaker.fresh cfg)
  obtain ⟨hcF, hfcF, hscF, hlF, hstF⟩ :=
    on_failure_fields (apply_failures cfg ts') tlast
  rw [hcfgP, hcntP, if_pos (le_of_eq hthr.symm)] at hstF
  rw [hcfgP] at hcF
  refine ⟨by rw [hsplit]; exact hstF, by rw [hsplit]; exact hlF, ?_, ?_, ?_⟩
  · rw [hsplit, can_execute_open _ tlast now₁ hstF hlF, hcF,
      if_neg (by omega)]
  · rw [hsplit, can_execute_open _ tlast now₂ hstF hlF, hcF, if_pos (by omega)]
    simp [hcF]
  · rw [hsplit]
    have hiter := on_success_iter cfg.failure_threshold
      { (apply_failures cfg ts').on_failure tlast with state := CircuitState.HALF_OPEN }
      (by rfl) (by omega) (by simp [hscF, hcF])
    simpa [hcF, hlF] using hiter

/-- Witness for C3 at a concrete configuration: threshold 2, recovery
timeout 60, failures at times 0 and 5, probes at times 65 (still blocked)
and 66 (recovery probe allowed). -/
theorem c3_breaker_lifecycle_witness :
    (([0] : List Nat).length + 1 =
        ({ failure_threshold := 2, recovery_timeout := 60,
           name := "ml_identification" } : CircuitBreakerConfig).failure_threshold ∧
      65 - 5 ≤ 60 ∧ 60 < 66 - 5) ∧
    ((apply_failures ⟨2, 60, "ml_identification"⟩ ([0] ++ [5])).state
        = CircuitState.OPEN ∧
      (apply_failures ⟨2, 60, "ml_identification"⟩ ([0] ++ [5])).last_failure_time
        = some 5 ∧
      (apply_failures ⟨2, 60, "ml_identification"⟩ ([0] ++ [5])).can_execute 65 =
        (apply_failures ⟨2, 60, "ml_identification"⟩ ([0] ++ [5]), false) ∧
      (apply_failures ⟨2, 60, "ml_identification"⟩ ([0] ++ [5])).can_execute 66 =
        ({ apply_failures ⟨2, 60, "ml_identification"⟩ ([0] ++ [5]) with
            state := CircuitState.HALF_OPEN }, true) ∧
      CircuitBreaker.on_success^[(2 : Nat)]
          { apply_failures ⟨2, 60, "ml_identification"⟩ ([0] ++ [5]) with
              state := CircuitState.HALF_OPEN } =
        { config := ⟨2, 60, "ml_identification"⟩, state := CircuitState.CLOSED,
          failure_count := 0, last_failure_time := some 5, success_count := 0 }) :=
  ⟨⟨by decide, by decide, by decide⟩,
    c3_breaker_lifecycle ⟨2, 60, "ml_identification"⟩ [0] 5 (by decide) 65 66
      (by decide) (by decide)⟩

/-- C4 (counterexample): a reachable `HALF_OPEN` breaker on which a single
`on_failure` call does not reopen the circuit.  With threshold 2, two
failures open the breaker, time 66 moves it to `HALF_OPEN`; after one
success (which resets the failure count) a single failure leaves the state
`HALF_OPEN`, not `OPEN`. -/
theorem c4_counterexample :
    (((((CircuitBreaker.fresh ⟨2, 60, "mlid"⟩).on_failure 0).on_failure 5
        ).can_execute 66).1).state = CircuitState.HALF_OPEN ∧
    ((((((CircuitBreaker.fresh ⟨2, 60, "mlid"⟩).on_failure 0).on_failure 5
        ).can_execute 66).1.on_success).on_failure 70).state ≠ CircuitState.OPEN ∧
    ((((((CircuitBreaker.fresh ⟨2, 60, "mlid"⟩).on_failure 0).on_failure 5
        ).can_execute 66).1.on_success).on_failure 70).state
      = CircuitState.HALF_OPEN := by decide

/-- C4 (amended): from a `HALF_OPEN` breaker, one `on_failure` call moves
the state to `OPEN` exactly when the incremented failure count reaches the
threshold; in particular it does whenever the failure count is still at or
above the threshold (as it is immediately after entering `HALF_OPEN` with
no intervening success), and otherwise the breaker stays `HALF_OPEN`. -/
theorem c4_half_open_failure_amended (cb : CircuitBreaker) (now : Nat)
    (h : cb.state = CircuitState.HALF_OPEN) :
    ((cb.on_failure now).state = CircuitState.OPEN ↔
      cb.config.failure_threshold ≤ cb.failure_count + 1) ∧
    (cb.config.failure_threshold ≤ cb.failure_count →
      (cb.on_failure now).state = CircuitState.OPEN) ∧
    ((cb.on_failure now).state ≠ CircuitState.OPEN →
      (cb.on_failure now).state = CircuitState.HALF_OPEN) := by
  obtain ⟨-, -, -, -, hst⟩ := on_failure_fields cb now
  by_cases hc : cb.config.failure_threshold ≤ cb.failure_count + 1
  · rw [if_pos hc] at hst
    exact ⟨by simp [hst, hc], fun _ => hst, fun hne => absurd hst hne⟩
  · rw [if_neg hc] at hst
    rw [hst, h]
    exact ⟨by simp [hc], fun hle => absurd (by omega) hc, fun _ => rfl⟩

/-- Witness for the amended C4: a `HALF_OPEN` breaker whose failure count
is still at the threshold, where one failure does reopen the circuit. -/
theorem c4_half_open_failure_witness :
    ((⟨⟨2, 60, "mlid_w"⟩, CircuitState.HALF_OPEN, 2, some 5, 0⟩ :
        CircuitBreaker).state = CircuitState.HALF_OPEN) ∧
    (((⟨⟨2, 60, "mlid_w"⟩, CircuitState.HALF_OPEN, 2, some 5, 0⟩ :
          CircuitBreaker).on_failure 70).state = CircuitState.OPEN ↔ 2 ≤ 2 + 1) ∧
    (2 ≤ 2 →
      ((⟨⟨2, 60, "mlid_w"⟩, CircuitState.HALF_OPEN, 2, some 5, 0⟩ :
          CircuitBreaker).on_failure 70).state = CircuitState.OPEN) ∧
    (((⟨⟨2, 60, "mlid_w"⟩, CircuitState.HALF_OPEN, 2, some 5, 0⟩ :
          CircuitBreaker).on_failure 70).state ≠ CircuitState.OPEN →
      ((⟨⟨2, 60, "mlid_w"⟩, CircuitState.HALF_OPEN, 2, some 5, 0⟩ :
          CircuitBreaker).on_failure 70).state = CircuitState.HALF_OPEN) :=
  ⟨by decide,
    (c4_half_open_failure_amended
      ⟨⟨2, 60, "mlid_w"⟩, CircuitState.HALF_OPEN, 2, some 5, 0⟩ 70 (by decide)).1,
    (c4_half_open_failure_amended
      ⟨⟨2, 60, "mlid_w"⟩, CircuitState.HALF_OPEN, 2, some 5, 0⟩ 70 (by decide)).2.1,
    (c4_half_open_failure_amended
      ⟨⟨2, 60, "mlid_w"⟩, CircuitState.HALF_OPEN, 2, some 5, 0⟩ 70 (by decide)).2.2⟩

/-- Evaluating `can_execute` on a `CLOSED` breaker answers `true` and changes
nothing. -/
theorem can_execute_closed (cb : CircuitBreaker) (now : Nat)
    (h : cb.state = CircuitState.CLOSED) : cb.can_execute now = (cb, true) := by
  obtain ⟨cfg, st, fc, lft, sc⟩ := cb
  simp only at h
  subst h
  rfl

/-! ## Retry loop lemmas -/

/-- One loop step: a successful attempt returns immediately. -/
theorem execAttempts_step_ok {ε α : Type} (rc : RetryConfig ε) (name : String)
    (fb : Option (Except ε α)) (op : Nat → Except ε α) (tm : Nat → Nat)
    (m k : Nat) (cb : CircuitBreaker) (sleeps : List ℚ) (a : α)
    (hop : op k = Except.ok a) :
    execAttempts rc name fb op tm (m + 1) k cb sleeps
      = ⟨ExecResult.ok a, k + 1, sleeps.reverse, cb.on_success⟩ := by
  conv_lhs => rw [execAttempts]
  simp [hop]

/-- One loop step: a retryable failure before the last attempt records
the failure, pushes the backoff delay, and continues with the next
attempt. -/
theorem execAttempts_step_error {ε α : Type} (rc : RetryConfig ε) (name : String)
    (fb : Option (Except ε α)) (op : Nat → Except ε α) (tm : Nat → Nat)
    (m k : Nat) (cb : CircuitBreaker) (sleeps : List ℚ) (e : ε)
    (hop : op k = Except.error e) (hexc : rc.exceptions e = true)
    (hne : k ≠ rc.max_attempts - 1) :
    execAttempts rc name fb op tm (m + 1) k cb sleeps
      = execAttempts rc name fb op tm m (k + 1) (cb.on_failure (tm k))
          (backoff_delay rc k :: sleeps) := by
  conv_lhs => rw [execAttempts]
  simp [hop, hexc, hne]

/-- One loop step: a retryable failure on the last attempt ends in the
fallback. -/
theorem execAttempts_step_last {ε α : Type} (rc : RetryConfig ε) (name : String)
    (fb : Option (Except ε α)) (op : Nat → Except ε α) (tm : Nat → Nat)
    (m k : Nat) (cb : CircuitBreaker) (sleeps : List ℚ) (e : ε)
    (hop : op k = Except.error e) (hexc : rc.exceptions e = true)
    (hk1 : k = rc.max_attempts - 1) :
    execAttempts rc name fb op tm (m + 1) k cb sleeps
      = ⟨ExecResult.fallback (execute_fallback name fb), k + 1,
          sleeps.reverse, cb.on_failure (tm k)⟩ := by
  conv_lhs => rw [execAttempts]
  simp only [hop]
  rw [if_pos hexc, if_pos hk1]

/-- One loop step: an error not matched by the policy propagates raw,
leaving the breaker untouched. -/
theorem execAttempts_step_raised {ε α : Type} (rc : RetryConfig ε) (name : String)
    (fb : Option (Except ε α)) (op : Nat → Except ε α) (tm : Nat → Nat)
    (m k : Nat) (cb : CircuitBreaker) (sleeps : List ℚ) (e : ε)
    (hop : op k = Except.error e) (hexc : rc.exceptions e = false) :
    execAttempts rc name fb op tm (m + 1) k cb sleeps
      = ⟨ExecResult.raised e, k + 1, sleeps.reverse, cb⟩ := by
  conv_lhs => rw [execAttempts]
  simp [hop, hexc]

/-- When every attempt fails retryably, the loop performs all
`max_attempts` invocations, sleeps the backoff schedule between
consecutive attempts, and ends in the fallback. -/
theorem execAttempts_all_fail {ε α : Type} (rc : RetryConfig ε) (name : String)
    (fb : Option (Except ε α)) (op : Nat → Except ε α) (tm : Nat → Nat)
    (hfail : ∀ j, j < rc.max_attempts → retry_fails rc (op j)) :
    ∀ (remaining k : Nat) (cb : CircuitBreaker) (sleeps : List ℚ),
    k + remaining = rc.max_attempts → 1 ≤ remaining →
    (execAttempts rc name fb op tm remaining k cb sleeps).result
        = ExecResult.fallback (execute_fallback name fb) ∧
    (execAttempts rc name fb op tm remaining k cb sleeps).invocations
        = rc.max_attempts ∧
    (execAttempts rc name fb op tm remaining k cb sleeps).sleeps
        = sleeps.reverse ++ (List.range' k (remaining - 1)).map (backoff_delay rc) := by
  intro remaining
  induction remaining with
  | zero => intro k cb sleeps hk h1; omega
  | succ m ih =>
    intro k cb sleeps hk _
    obtain ⟨e, he, hexc⟩ := hfail k (by omega)
    cases m with
    | zero =>
      have hk1 : k = rc.max_attempts - 1 := by omega
      rw [execAttempts_step_last rc name fb op tm 0 k cb sleeps e he hexc hk1]
      exact ⟨rfl, by show k + 1 = rc.max_attempts; omega, by simp [List.range']⟩
    | succ m' =>
      have hne : k ≠ rc.max_attempts - 1 := by omega
      rw [execAttempts_step_error rc name fb op tm (m' + 1) k cb sleeps e he hexc hne]
      obtain ⟨r1, r2, r3⟩ := ih (k + 1) (cb.on_failure (tm k))
        (backoff_delay rc k :: sleeps) (by omega) (by omega)
      refine ⟨r1, r2, ?_⟩
      rw [r3, List.reverse_cons, List.append_assoc]
      have hr : List.range' k (m' + 1) = k :: List.range' (k + 1) m' :=
        List.range'_succ k m' 1
      simp [hr]

/-- A successful attempt at index `j` (after `j` retryable failures)
returns that result immediately with `j + 1` invocations and the `j`
backoff sleeps already performed. -/
theorem execAttempts_success {ε α : Type} (rc : RetryConfig ε) (name : String)
    (fb : Option (Except ε α)) (op : Nat → Except ε α) (tm : Nat → Nat)
    (j : Nat) (a : α) (hja : op j = Except.ok a) :
    ∀ (remaining k : Nat) (cb : CircuitBreaker) (sleeps : List ℚ),
    k + remaining = rc.max_attempts → k ≤ j → j < rc.max_attempts →
    (∀ i, k ≤ i → i < j → retry_fails rc (op i)) →
    (∃ cb', execAttempts rc name fb op tm remaining k cb sleeps
        = ⟨ExecResult.ok a, j + 1,
            sleeps.reverse ++ (List.range' k (j - k)).map (backoff_delay rc),
            cb'⟩) := by
  intro remaining
  induction remaining with
  | zero => intro k cb sleeps hk hkj hj _; omega
  | succ m ih =>
    intro k cb sleeps hk hkj hj hfail
    by_cases hkj' : k = j
    · subst hkj'
      refine ⟨cb.on_success, ?_⟩
      rw [execAttempts_step_ok rc name fb op tm m k cb sleeps a hja]
      simp [List.range']
    · obtain ⟨e, he, hexc⟩ := hfail k (le_refl k) (by omega)
      have hne : k ≠ rc.max_attempts - 1 := by omega
      rw [execAttempts_step_error rc name fb op tm m k cb sleeps e he hexc hne]
      obtain ⟨cb', hrec⟩ := ih (k + 1) (cb.on_failure (tm k))
        (backoff_delay rc k :: sleeps) (by omega) (by omega) hj
        (fun i hi1 hi2 => hfail i (by omega) hi2)
      refine ⟨cb', ?_⟩
      rw [hrec, List.reverse_cons, List.append_assoc]
      have hjk : j - k = (j - (k + 1)) + 1 := by omega
      have hr : List.range' k (j - k) = k :: List.range' (k + 1) (j - (k + 1)) := by
        rw [hjk]
        exact List.range'_succ k (j - (k + 1)) 1
      simp [hr]

/-- When every error raised by the operation is matched by the policy,
the loop never lets an exception escape: it ends in a success or in the
fallback. -/
theorem execAttempts_absorbs {ε α : Type} (rc : RetryConfig ε) (name : String)
    (fb : Option (Except ε α)) (op : Nat → Except ε α) (tm : Nat → Nat)
    (hmatch : ∀ k e, op k = Except.error e → rc.exceptions e = true) :
    ∀ (remaining k : Nat) (cb : CircuitBreaker) (sleeps : List ℚ),
    1 ≤ remaining → k + remaining = rc.max_attempts →
    (∃ a, (execAttempts rc name fb op tm remaining k cb sleeps).result
        = ExecResult.ok a) ∨
    (execAttempts rc name fb op tm remaining k cb sleeps).result
        = ExecResult.fallback (execute_fallback name fb) := by
  intro remaining
  induction remaining with
  | zero => intro k cb sleeps h1 hk; omega
  | succ m ih =>
    intro k cb sleeps _ hk
    cases hop : op k with
    | ok a =>
      refine Or.inl ⟨a, ?_⟩
      rw [execAttempts_step_ok rc name fb op tm m k cb sleeps a hop]
    | error e =>
      have hexc := hmatch k e hop
      by_cases hk1 : k = rc.max_attempts - 1
      · refine Or.inr ?_
        rw [execAttempts_step_last rc name fb op tm m k cb sleeps e hop hexc hk1]
      · have hm : 1 ≤ m := by omega
        rw [execAttempts_step_error rc name fb op tm m k cb sleeps e hop hexc hk1]
        exact ih (k + 1) (cb.on_failure (tm k))
          (backoff_delay rc k :: sleeps) hm (by omega)

/-! ## Claim theorems: resilient executor -/

/-- C7: when the breaker denies execution, `execute_with_resilience`
returns the fallback without invoking the operation, sleeps never, and
leaves the breaker (state and both counters) exactly as it was. -/
theorem c7_short_circuit {ε α : Type} (name : String) (cb0 : CircuitBreaker)
    (rcOpt : Option (RetryConfig ε)) (fb : Option (Except ε α))
    (op : Nat → Except ε α) (tm : Nat → Nat) (now : Nat)
    (h : (cb0.can_execute now).2 = false) :
    execute_with_resilience name cb0 rcOpt fb op tm now =
      ⟨ExecResult.fallback (execute_fallback name fb), 0, [], cb0⟩ := by
  have hframe := can_execute_false_frame cb0 now h
  simp only [execute_with_resilience, h, Bool.false_eq_true, if_false, hframe]

/-- Witness for C7: an `OPEN` breaker still inside its recovery window
short-circuits to the default ML fallback with zero invocations. -/
theorem c7_short_circuit_witness :
    ((⟨⟨5, 60, "ml_service"⟩, CircuitState.OPEN, 5, some 0, 0⟩ :
        CircuitBreaker).can_execute 30).2 = false ∧
    execute_with_resilience "ml_service"
        ⟨⟨5, 60, "ml_service"⟩, CircuitState.OPEN, 5, some 0, 0⟩
        (none : Option (RetryConfig String)) (none : Option (Except String Nat))
        (fun _ => Except.ok 42) (fun _ => 0) 30 =
      ⟨ExecResult.fallback
          (execute_fallback "ml_service" (none : Option (Except String Nat))), 0, [],
        ⟨⟨5, 60, "ml_service"⟩, CircuitState.OPEN, 5, some 0, 0⟩⟩ :=
  ⟨by decide,
    c7_short_circuit "ml_service" _ _ _ (fun _ => Except.ok 42) (fun _ => 0) 30
      (by decide)⟩

/-- C5: with a configured policy of `N ≥ 1` attempts and an executable
breaker, an operation failing retryably on every attempt is invoked
exactly `N` times with backoff sleeps
`min(base_delay * backoff_factor^k, max_delay)` for `k = 0 .. N-2`
between consecutive attempts, and an operation that succeeds at attempt
`j` (after `j` retryable failures) returns that result immediately with
exactly `j + 1` invocations. -/
theorem c5_retry_bound {ε α : Type} (name : String) (cb0 : CircuitBreaker)
    (rc : RetryConfig ε) (fb : Option (Except ε α)) (tm : Nat → Nat) (now : Nat)
    (N : Nat) (hN : rc.max_attempts = N) (h1 : 1 ≤ N)
    (hcb : cb0.state = CircuitState.CLOSED) :
    (∀ op : Nat → Except ε α, (∀ j, j < N → retry_fails rc (op j)) →
      (execute_with_resilience name cb0 (some rc) fb op tm now).invocations = N ∧
      (execute_with_resilience name cb0 (some rc) fb op tm now).sleeps
        = (List.range (N - 1)).map (backoff_delay rc)) ∧
    (∀ (op : Nat → Except ε α) (j : Nat) (a : α), j < N →
      (∀ i, i < j → retry_fails rc (op i)) → op j = Except.ok a →
      (execute_with_resilience name cb0 (some rc) fb op tm now).result
          = ExecResult.ok a ∧
      (execute_with_resilience name cb0 (some rc) fb op tm now).invocations
          = j + 1 ∧
      (execute_with_resilience name cb0 (some rc) fb op tm now).sleeps
        = (List.range j).map (backoff_delay rc)) := by
  have hexec : ∀ op : Nat → Except ε α,
      execute_with_resilience name cb0 (some rc) fb op tm now
        = execAttempts rc name fb op tm rc.max_attempts 0 cb0 [] := by
    intro op
    simp [execute_with_resilience, can_execute_closed cb0 now hcb]
  constructor
  · intro op hfail
    obtain ⟨-, r2, r3⟩ := execAttempts_all_fail rc name fb op tm
      (by rw [hN]; exact hfail) rc.max_attempts 0 cb0 [] (by omega) (by omega)
    constructor
    · rw [hexec op, r2, hN]
    · rw [hexec op, r3, hN]
      simp [List.range_eq_range']
  · intro op j a hj hfail hja
    obtain ⟨cb', hrec⟩ := execAttempts_success rc name fb op tm j a hja
      rc.max_attempts 0 cb0 [] (by omega) (by omega) (by omega)
      (fun i _ hij => hfail i hij)
    rw [hexec op, hrec]
    refine ⟨rfl, rfl, ?_⟩
    simp [List.range_eq_range']

/-- Witness for C5: the `ml_service` policy (3 attempts); a permanently
timing-out operation runs 3 times with the two backoff sleeps, and an
operation succeeding on its second attempt stops after 2 invocations. -/
theorem c5_retry_bound_witness :
    ((execute_with_resilience "ml_service" (CircuitBreaker.fresh ⟨5, 60, "ml_service"⟩)
        (some ml_retry_config) (none : Option (Except String Nat))
        (fun _ => Except.error "timeout") (fun _ => 0) 0).invocations = 3 ∧
      (execute_with_resilience "ml_service" (CircuitBreaker.fresh ⟨5, 60, "ml_service"⟩)
        (some ml_retry_config) (none : Option (Except String Nat))
        (fun _ => Except.error "timeout") (fun _ => 0) 0).sleeps
        = (List.range (3 - 1)).map (backoff_delay ml_retry_config)) ∧
    ((execute_with_resilience "ml_service" (CircuitBreaker.fresh ⟨5, 60, "ml_service"⟩)
        (some ml_retry_config) (none : Option (Except String Nat))
        (fun k => if k = 0 then Except.error "timeout" else Except.ok 42)
        (fun _ => 0) 0).result = ExecResult.ok 42 ∧
      (execute_with_resilience "ml_service" (CircuitBreaker.fresh ⟨5, 60, "ml_service"⟩)
        (some ml_retry_config) (none : Option (Except String Nat))
        (fun k => if k = 0 then Except.error "timeout" else Except.ok 42)
        (fun _ => 0) 0).invocations = 1 + 1 ∧
      (execute_with_resilience "ml_service" (CircuitBreaker.fresh ⟨5, 60, "ml_service"⟩)
        (some ml_retry_config) (none : Option (Except String Nat))
        (fun k => if k = 0 then Except.error "timeout" else Except.ok 42)
        (fun _ => 0) 0).sleeps = (List.range 1).map (backoff_delay ml_retry_config)) :=
  ⟨(c5_retry_bound "ml_service" (CircuitBreaker.fresh ⟨5, 60, "ml_service"⟩)
      ml_retry_config none (fun _ => 0) 0 3 rfl (by decide) rfl).1
      (fun _ => Except.error "timeout")
      (fun _ _ => ⟨"timeout", rfl, rfl⟩),
    (c5_retry_bound "ml_service" (CircuitBreaker.fresh ⟨5, 60, "ml_service"⟩)
      ml_retry_config none (fun _ => 0) 0 3 rfl (by decide) rfl).2
      (fun k => if k = 0 then Except.error "timeout" else Except.ok 42) 1 42
      (by decide)
      (by
        intro i hi
        have h0 : i = 0 := by omega
        subst h0
        exact ⟨"timeout", rfl, rfl⟩)
      rfl⟩

/-- C6 (amended): an error not matched by the policy's exception tuple
causes exactly one invocation with no backoff sleep, but it is not
recorded by the circuit breaker (the breaker is returned untouched) and
the raw error propagates to the caller instead of being absorbed. -/
theorem c6_non_retryable_amended {ε α : Type} (name : String)
    (cb0 : CircuitBreaker) (rc : RetryConfig ε) (fb : Option (Except ε α))
    (op : Nat → Except ε α) (tm : Nat → Nat) (now : Nat) (e : ε)
    (hcb : cb0.state = CircuitState.CLOSED) (h1 : 1 ≤ rc.max_attempts)
    (hop : op 0 = Except.error e) (hexc : rc.exceptions e = false) :
    execute_with_resilience name cb0 (some rc) fb op tm now
      = ⟨ExecResult.raised e, 1, [], cb0⟩ := by
  have hexec : execute_with_resilience name cb0 (some rc) fb op tm now
      = execAttempts rc name fb op tm rc.max_attempts 0 cb0 [] := by
    simp [execute_with_resilience, can_execute_closed cb0 now hcb]
  obtain ⟨m, hm⟩ : ∃ m, rc.max_attempts = m + 1 := ⟨rc.max_attempts - 1, by omega⟩
  rw [hexec, hm, execAttempts_step_raised rc name fb op tm m 0 cb0 [] e hop hexc]
  rfl

/-- Witness for the amended C6: the timeout-only policy with a
"corrupt image" error propagates it raw after a single invocation. -/
theorem c6_non_retryable_witness :
    ((CircuitBreaker.fresh ⟨5, 60, "mlid_nr"⟩).state = CircuitState.CLOSED ∧
      1 ≤ nonretry_config.max_attempts ∧
      nonretry_config.exceptions "corrupt image" = false) ∧
    execute_with_resilience "ml_identification"
        (CircuitBreaker.fresh ⟨5, 60, "mlid_nr"⟩) (some nonretry_config)
        (none : Option (Except String Nat))
        (fun _ => Except.error "corrupt image") (fun _ => 0) 0
      = ⟨ExecResult.raised "corrupt image", 1, [],
          CircuitBreaker.fresh ⟨5, 60, "mlid_nr"⟩⟩ :=
  ⟨⟨rfl, by decide, rfl⟩,
    c6_non_retryable_amended "ml_identification"
      (CircuitBreaker.fresh ⟨5, 60, "mlid_nr"⟩) nonretry_config none
      (fun _ => Except.error "corrupt image") (fun _ => 0) 0 "corrupt image"
      rfl (by decide) rfl rfl⟩

/-- C6 (counterexample): under the timeout-only policy, a "corrupt image"
error causes one invocation but leaves the breaker's failure count at 0 —
the non-retryable error is not counted by the circuit breaker, contrary
to the claim. -/
theorem c6_counterexample :
    (execute_with_resilience "ml_identification"
        (CircuitBreaker.fresh ⟨5, 60, "mlid_cx"⟩) (some nonretry_config)
        (none : Option (Except String Nat))
        (fun _ => Except.error "corrupt image") (fun _ => 0) 0).invocations = 1 ∧
    (execute_with_resilience "ml_identification"
        (CircuitBreaker.fresh ⟨5, 60, "mlid_cx"⟩) (some nonretry_config)
        (none : Option (Except String Nat))
        (fun _ => Except.error "corrupt image") (fun _ => 0) 0).breaker.failure_count
      = 0 ∧
    (execute_with_resilience "ml_identification"
        (CircuitBreaker.fresh ⟨5, 60, "mlid_cx"⟩) (some nonretry_config)
        (none : Option (Except String Nat))
        (fun _ => Except.error "corrupt image") (fun _ => 0) 0).result
      = ExecResult.raised "corrupt image" :=
  ⟨rfl, rfl, rfl⟩

/-- C2 (amended): whenever every error the operation raises is matched by
the policy's exception tuple, no exception escapes: the call ends in a
successful result or in the fallback value — the registered handler's
result when it returns, and the structurally valid default when no
handler is registered or the handler raises.  (An error outside the tuple
propagates raw; see the counterexample.) -/
theorem c2_execute_absorbs_amended {ε α : Type} (name : String)
    (cb0 : CircuitBreaker) (rcOpt : Option (RetryConfig ε))
    (fb : Option (Except ε α)) (op : Nat → Except ε α) (tm : Nat → Nat)
    (now : Nat) (h1 : 1 ≤ (rcOpt.getD {}).max_attempts)
    (hmatch : ∀ k e, op k = Except.error e →
      (rcOpt.getD {}).exceptions e = true) :
    ((∃ a, (execute_with_resilience name cb0 rcOpt fb op tm now).result
        = ExecResult.ok a) ∨
      (execute_with_resilience name cb0 rcOpt fb op tm now).result
        = ExecResult.fallback (execute_fallback name fb)) ∧
    (execute_fallback name (none : Option (Except ε α))
        = FallbackOutcome.defaulted (get_default_fallback name)) ∧
    (∀ e : ε, execute_fallback name (some (Except.error e) : Option (Except ε α))
        = FallbackOutcome.defaulted (get_default_fallback name)) ∧
    (∀ a : α, execute_fallback name (some (Except.ok a) : Option (Except ε α))
        = FallbackOutcome.handler a) := by
  refine ⟨?_, rfl, fun e => rfl, fun a => rfl⟩
  by_cases hce : (cb0.can_execute now).2 = true
  · have hexec : execute_with_resilience name cb0 rcOpt fb op tm now
        = execAttempts (rcOpt.getD {}) name fb op tm
            (rcOpt.getD {}).max_attempts 0 (cb0.can_execute now).1 [] := by
      simp [execute_with_resilience, hce]
    rw [hexec]
    exact execAttempts_absorbs (rcOpt.getD {}) name fb op tm hmatch
      (rcOpt.getD {}).max_attempts 0 _ [] h1 (by omega)
  · have hb : (cb0.can_execute now).2 = false := by
      simpa using hce
    have hexec : execute_with_resilience name cb0 rcOpt fb op tm now
        = ⟨ExecResult.fallback (execute_fallback name fb), 0, [],
            (cb0.can_execute now).1⟩ := by
      simp [execute_with_resilience, hb]
    rw [hexec]
    exact Or.inr rfl

/-- Witness for the amended C2: the default policy (which matches every
exception) with a permanently timing-out operation and no registered
handler ends in a success-or-fallback result, and the fallback resolution
cases hold for the ML dependency name. -/
theorem c2_execute_absorbs_witness :
    (1 ≤ ((none : Option (RetryConfig String)).getD {}).max_attempts) ∧
    (((∃ a, (execute_with_resilience "ml_service"
          (CircuitBreaker.fresh ⟨5, 60, "ml_service"⟩)
          (none : Option (RetryConfig String)) (none : Option (Except String Nat))
          (fun _ => Except.error "timeout") (fun _ => 0) 0).result
        = ExecResult.ok a) ∨
      (execute_with_resilience "ml_service"
          (CircuitBreaker.fresh ⟨5, 60, "ml_service"⟩)
          (none : Option (RetryConfig String)) (none : Option (Except String Nat))
          (fun _ => Except.error "timeout") (fun _ => 0) 0).result
        = ExecResult.fallback
            (execute_fallback "ml_service" (none : Option (Except String Nat)))) ∧
    (execute_fallback "ml_service" (none : Option (Except String Nat))
        = FallbackOutcome.defaulted (get_default_fallback "ml_service")) ∧
    (∀ e : String, execute_fallback "ml_service"
          (some (Except.error e) : Option (Except String Nat))
        = FallbackOutcome.defaulted (get_default_fallback "ml_service")) ∧
    (∀ a : Nat, execute_fallback "ml_service"
          (some (Except.ok a) : Option (Except String Nat))
        = FallbackOutcome.handler a)) :=
  ⟨by decide,
    c2_execute_absorbs_amended "ml_service"
      (CircuitBreaker.fresh ⟨5, 60, "ml_service"⟩)
      (none : Option (RetryConfig String)) (none : Option (Except String Nat))
      (fun _ => Except.error "timeout") (fun _ => 0) 0 (by decide)
      (fun _ _ _ => rfl)⟩

/-- C2 (counterexample): with a policy whose exception tuple matches only
timeouts, a "disk corrupt" failure is not absorbed into a fallback — the
raw error is exactly what the caller receives. -/
theorem c2_counterexample :
    (execute_with_resilience "database"
        (CircuitBreaker.fresh ⟨5, 60, "database"⟩)
        (some { max_attempts := 5, base_delay := 1, max_delay := 30,
                backoff_factor := 2, exceptions := fun e => e == "timeout" }
          : Option (RetryConfig String))
        (none : Option (Except String Nat))
        (fun _ => Except.error "disk corrupt") (fun _ => 0) 0).result
      = ExecResult.raised "disk corrupt" := rfl

/-! ## Claim theorems: ML identification service -/

/-- C10: `identify_card` is total over every internal outcome (so no
exception reaches its caller); on any internal failure it returns the
canonical prediction with name/set/rarity "Unknown" and confidence 0,
recording the failure only in the metadata; an empty similarity tensor
(an inference error) lands in the same branch; and on any similarity
vector the returned name is either "Unknown" or a card of the card
database. -/
theorem c10_identify_card_never_raises (e : String) (sims : List ℚ)
    (elapsed : Nat) :
    identify_card (Except.error e) elapsed = unknown_prediction e elapsed ∧
    (unknown_prediction e elapsed).name = "Unknown" ∧
    (unknown_prediction e elapsed).set = "Unknown" ∧
    (unknown_prediction e elapsed).rarity = "Unknown" ∧
    (unknown_prediction e elapsed).confidence = 0 ∧
    (unknown_prediction e elapsed).metadata = some (MLMetadata.err e) ∧
    identify_card (Except.ok ([] : List ℚ)) elapsed
      = unknown_prediction "argmax of an empty tensor" elapsed ∧
    ((identify_card (Except.ok sims) elapsed).name = "Unknown" ∨
      (identify_card (Except.ok sims) elapsed).name ∈ card_names) := by
  refine ⟨rfl, rfl, rfl, rfl, rfl, rfl, rfl, ?_⟩
  cases hidx : argmax_idx sims with
  | none =>
    left
    simp only [identify_card, hidx]
    rfl
  | some idx =>
    cases hget : card_names.get? idx with
    | none =>
      left
      simp only [identify_card, hidx, hget]
      rfl
    | some nm =>
      cases hdb : card_database nm with
      | none =>
        left
        simp only [identify_card, hidx, hget, hdb]
        rfl
      | some info =>
        right
        simp only [identify_card, hidx, hget, hdb]
        exact List.get?_mem hget

/-! ## Scan endpoint lemmas -/

/-- A successful `perform_scan_with_retry` result never carries an
`error_type` (the success dict has no such key). -/
theorem perform_scan_ok_shape (deps : ScanDeps) (d : CardData)
    (h : perform_scan_with_retry deps = Except.ok d) : d.error_type = none := by
  unfold perform_scan_with_retry at h
  rcases deps with ⟨rr, dets, cr, io, ms⟩
  dsimp only at h
  cases rr with
  | error e => simp at h
  | ok u =>
    by_cases hd : dets.isEmpty
    · simp only [hd, if_true] at h
      simp only [Except.ok.injEq] at h
      rw [← h]
    · simp only [hd, if_false] at h
      cases cr with
      | error e => simp at h
      | ok u2 =>
        simp at h
        rw [← h]

/-- Distinct error-kind strings of the guidance decision table. -/
theorem ml_error_ne_offline : ("ml_error" : String) ≠ "offline_mode" := by decide

/-! ## Claim theorems: scan endpoint -/

/-- C1 (counterexample): a validated 2MB jpeg scan whose detection and
identification both succeed still makes the endpoint raise when the
analytics write fails — the already-computed response is discarded and
the raw database error escapes, contrary to the claim that an
analytics-write failure never surfaces. -/
theorem c1_counterexample :
    scan_endpoint "image/jpeg" (some (2 * 1024 * 1024)) ⟨"online", 0⟩ 0
        pikachu_scenario_deps 12 (Except.error "database write failed")
      = Except.error (EndpointError.uncaught "database write failed") := rfl

/-- C1 (amended): for an upload passing the upfront validation, the
endpoint returns a response for every combination of detection and
identification outcomes whenever the analytics write succeeds — but an
analytics-write failure escapes the endpoint as an uncaught exception
(discarding the computed response); only the validation checks produce
the client-visible 400/413 errors. -/
theorem c1_scan_endpoint_amended (content_type : String) (size : Option Nat)
    (system : SystemStatus) (retry_count : Nat) (deps : ScanDeps) (pt : Nat)
    (hct : content_type ∈ allowed_types)
    (hsz : size.getD 0 ≤ 10 * 1024 * 1024) :
    (∀ aid : Nat, ∃ r : ScanResponse,
      scan_endpoint content_type size system retry_count deps pt (Except.ok aid)
        = Except.ok r) ∧
    (∀ e : String,
      scan_endpoint content_type size system retry_count deps pt (Except.error e)
        = Except.error (EndpointError.uncaught e)) := by
  have hif1 : ¬ (content_type ∉ allowed_types) := fun hn => hn hct
  have hif2 : ¬ (10 * 1024 * 1024 < size.getD 0) := not_lt.mpr hsz
  constructor
  · intro aid
    unfold scan_endpoint
    rw [if_neg hif1, if_neg hif2]
    exact ⟨_, rfl⟩
  · intro e
    unfold scan_endpoint
    rw [if_neg hif1, if_neg hif2]

/-- Witness for the amended C1 on a concrete validated jpeg upload. -/
theorem c1_scan_endpoint_witness :
    (("image/jpeg" : String) ∈ allowed_types ∧
      (some (2 * 1024 * 1024) : Option Nat).getD 0 ≤ 10 * 1024 * 1024) ∧
    (∃ r : ScanResponse,
      scan_endpoint "image/jpeg" (some (2 * 1024 * 1024)) ⟨"online", 3⟩ 0
          pikachu_scenario_deps 12 (Except.ok 7) = Except.ok r) ∧
    scan_endpoint "image/jpeg" (some (2 * 1024 * 1024)) ⟨"online", 3⟩ 0
        pikachu_scenario_deps 12 (Except.error "db down")
      = Except.error (EndpointError.uncaught "db down") :=
  ⟨⟨by decide, by decide⟩,
    (c1_scan_endpoint_amended "image/jpeg" (some (2 * 1024 * 1024)) ⟨"online", 3⟩ 0
      pikachu_scenario_deps 12 (by decide) (by decide)).1 7,
    (c1_scan_endpoint_amended "image/jpeg" (some (2 * 1024 * 1024)) ⟨"online", 3⟩ 0
      pikachu_scenario_deps 12 (by decide) (by decide)).2 "db down"⟩

/-- C9: on every validated request whose analytics write succeeds, the
returned `user_guidance` action follows the fixed decision table —
offline mode yields `retry_when_online`; a raised scan error yields
`retry_with_better_image`; a successful scan with confidence below 0.7
yields `suggest_retry` and otherwise `add_to_collection` — and the
spec's concrete Pikachu scenario (2MB jpeg, one region at 0.9,
identification Pikachu at 0.95) yields `add_to_collection`. -/
theorem c9_user_guidance_table (content_type : String) (size : Option Nat)
    (system : SystemStatus) (retry_count : Nat) (deps : ScanDeps) (pt : Nat)
    (aid : Nat) (hct : content_type ∈ allowed_types)
    (hsz : size.getD 0 ≤ 10 * 1024 * 1024) :
    (∃ r : ScanResponse,
      scan_endpoint content_type size system retry_count deps pt (Except.ok aid)
        = Except.ok r ∧
      (system.connection_status = "offline" →
        Option.map UserGuidance.action r.user_guidance = some "retry_when_online") ∧
      (system.connection_status ≠ "offline" →
        (∀ e, perform_scan_with_retry deps = Except.error e →
          Option.map UserGuidance.action r.user_guidance
            = some "retry_with_better_image") ∧
        (∀ d, perform_scan_with_retry deps = Except.ok d →
          (d.confidence < 7/10 →
            Option.map UserGuidance.action r.user_guidance = some "suggest_retry") ∧
          (7/10 ≤ d.confidence →
            Option.map UserGuidance.action r.user_guidance
              = some "add_to_collection")))) ∧
    (∃ r : ScanResponse,
      scan_endpoint "image/jpeg" (some (2 * 1024 * 1024)) ⟨"online", 0⟩ 0
          pikachu_scenario_deps 12 (Except.ok 7) = Except.ok r ∧
      Option.map UserGuidance.action r.user_guidance = some "add_to_collection") := by
  have hif1 : ¬ (content_type ∉ allowed_types) := fun hn => hn hct
  have hif2 : ¬ (10 * 1024 * 1024 < size.getD 0) := not_lt.mpr hsz
  constructor
  · unfold scan_endpoint
    rw [if_neg hif1, if_neg hif2]
    refine ⟨_, rfl, ?_, ?_⟩
    · intro hoff
      simp [hoff, fallback_scan]
    · intro hon
      constructor
      · intro e he
        simp [hon, he, ml_error_ne_offline]
      · intro d hd
        have hnone := perform_scan_ok_shape deps d hd
        constructor
        · intro hlt
          simp [hon, hd, hnone, hlt]
        · intro hge
          simp [hon, hd, hnone, show ¬ (d.confidence < 7/10) from not_lt.mpr hge]
  · refine ⟨_, rfl, ?_⟩
    norm_num [scan_endpoint, pikachu_scenario_deps, perform_scan_with_retry,
      identify_card, argmax_idx, argmaxAux, card_names, card_database,
      allowed_types, show ("online" : String) ≠ "offline" from by decide]

/-- Witness for C9: the concrete Pikachu scenario via the decision-table
theorem. -/
theorem c9_user_guidance_witness :
    (("image/jpeg" : String) ∈ allowed_types ∧
      (some (2 * 1024 * 1024) : Option Nat).getD 0 ≤ 10 * 1024 * 1024) ∧
    (∃ r : ScanResponse,
      scan_endpoint "image/jpeg" (some (2 * 1024 * 1024)) ⟨"online", 0⟩ 0
          pikachu_scenario_deps 12 (Except.ok 7) = Except.ok r ∧
      Option.map UserGuidance.action r.user_guidance = some "add_to_collection") :=
  ⟨⟨by decide, by decide⟩,
    (c9_user_guidance_table "image/jpeg" (some (2 * 1024 * 1024)) ⟨"online", 0⟩ 0
      pikachu_scenario_deps 12 7 (by decide) (by decide)).2⟩

/-! ## Claim theorems: offline queue -/

/-- Draining keeps surviving actions in their original relative order:
the remaining queue's ids form a sublist of the input ids. -/
theorem drain_preserves_fifo (replay : OfflineAction → Bool) (m : Nat) :
    ∀ q : List OfflineAction,
    List.Sublist ((drain replay m q).queue.map OfflineAction.id)
      (q.map OfflineAction.id) := by
  intro q
  induction q with
  | nil => simp [drain]
  | cons a rest ih =>
    by_cases hra : replay a = true
    · simp only [drain, hra, if_true]
      exact List.Sublist.cons _ ih
    · have hra' : replay a = false := by simpa using hra
      by_cases hrc : a.retry_count + 1 < m
      · simp only [drain, hra', Bool.false_eq_true, if_false, if_pos hrc]
        exact List.Sublist.refl _
      · simp only [drain, hra', Bool.false_eq_true, if_false, if_neg hrc]
        exact List.Sublist.cons _ ih

/-- C8 (spec-modelled): `Drain` preserves FIFO order in general, and in
the A/B/C scenario — replay of "A" failing permanently with
`max_retries = 3` — each of the first two drains re-attempts only A
(keeping B and C queued behind it), and the third drain drops A with a
permanent-failure signal after exactly its third failed attempt, then
replays B and C in FIFO order. -/
theorem c8_queue_fifo :
    (∀ (replay : OfflineAction → Bool) (m : Nat) (q : List OfflineAction),
      List.Sublist ((drain replay m q).queue.map OfflineAction.id)
        (q.map OfflineAction.id)) ∧
    offline_q_abc.items = [⟨0, "A", 0⟩, ⟨1, "B", 0⟩, ⟨2, "C", 0⟩] ∧
    drain replay_fail_a 3 offline_q_abc.items
      = ⟨[⟨0, "A", 1⟩, ⟨1, "B", 0⟩, ⟨2, "C", 0⟩], [0], [], 0⟩ ∧
    drain replay_fail_a 3 [⟨0, "A", 1⟩, ⟨1, "B", 0⟩, ⟨2, "C", 0⟩]
      = ⟨[⟨0, "A", 2⟩, ⟨1, "B", 0⟩, ⟨2, "C", 0⟩], [0], [], 0⟩ ∧
    drain replay_fail_a 3 [⟨0, "A", 2⟩, ⟨1, "B", 0⟩, ⟨2, "C", 0⟩]
      = ⟨[], [0, 1, 2], [0], 2⟩ :=
  ⟨fun replay m q => drain_preserves_fifo replay m q,
    by decide, by decide, by decide, by decide⟩

end Scanemon
